import Mathlib

/-
Verification of the mgob backup orchestration core (pkg/backup/local.go).

The Go source is shallowly embedded: every effectful call (shell execution,
file system, MongoDB enumeration, uploaders) is parameterised by an explicit
outcome supplied to the model, and the model records a trace of the calls it
makes.  Times are epoch seconds (Nat), sizes are Int (Go int64).
-/

namespace Mgob

/-- Error model mirroring Go's error values in local.go:
`fail` is `fmt.Errorf` (a formatted message), `wrap` is `errors.Wrapf`
(message plus cause), `execTimeout` / `execExit` are the two ways the
external `sh.Command(...).Run/CombinedOutput` can fail (timeout vs
non-zero exit). -/
inductive Err where
  | fail (msg : String)
  | wrap (msg : String) (cause : Err)
  | execTimeout
  | execExit (code : Nat)
  deriving Repr, DecidableEq

/-- Connection target of a plan (config.Target): URI or host/port with
optional credentials, plus database/collection selectors. -/
structure Target where
  uri : String
  host : String
  port : String
  username : String
  password : String
  database : String
  collection : String
  excludeCollections : List String
  excludeDatabases : List String
  params : String
  deriving Repr, DecidableEq

/-- Scheduler settings of a plan (config.Scheduler): dump timeout in
minutes and the retention count. -/
structure Scheduler where
  timeout : Nat
  retention : Nat
  deriving Repr, DecidableEq

/-- A backup plan (config.Plan).  The optional encryption and destination
configs (`*Config` pointers in Go) are modelled by their presence: `true`
means the pointer is non-nil. -/
structure Plan where
  name : String
  target : Target
  scheduler : Scheduler
  mode : String
  encryption : Bool
  sftp : Bool
  s3 : Bool
  gcloud : Bool
  azure : Bool
  rclone : Bool
  deriving Repr, DecidableEq

/-- Process-wide configuration (config.AppConfig): the fields local.go
reads. -/
structure AppConfig where
  tmpPath : String
  storagePath : String
  deriving Repr, DecidableEq

/-- Modelled from the spec: the backup-mode constants live in the config
package, which is not part of the provided source.  The spec names the two
modes Single and PerDatabase; the empty string is accepted as the default
single mode by `Run`'s switch. -/
def BackupModeSingle : String := "single"

/-- Modelled from the spec: the per-database backup-mode constant of the
config package (see `BackupModeSingle`). -/
def BackupModeDatabase : String := "database"

/-- The per-attempt context (dumpConfig struct in local.go). -/
structure DumpConfig where
  plan : Plan
  tmpPath : String
  storagePath : String
  planDir : String
  ts : Nat
  name : String
  database : String
  deriving Repr, DecidableEq

/-- Construction of the dumpConfig at the top of `Run`. -/
def mkDumpConfig (plan : Plan) (conf : AppConfig) (ts : Nat) : DumpConfig :=
  { plan := plan
    database := plan.target.database
    tmpPath := conf.tmpPath
    storagePath := conf.storagePath
    ts := ts
    planDir := conf.storagePath ++ "/" ++ plan.name
    name := plan.name }

/-- Outcome record (Result struct). -/
structure Result where
  plan : String
  timestamp : Nat
  status : Nat
  duration : Nat
  name : String
  size : Int
  deriving Repr, DecidableEq

/-- errRes: the failure-seeded Result every path starts from
(status 500, name and size zero-valued). -/
def errRes (c : DumpConfig) : Result :=
  { plan := c.plan.name
    timestamp := c.ts
    status := 500
    duration := 0
    name := ""
    size := 0 }

/-- Archive temp path `{tmpPath}/{name}-{startEpochSeconds}.gz`. -/
def archivePath (c : DumpConfig) : String :=
  c.tmpPath ++ "/" ++ c.name ++ "-" ++ toString c.ts ++ ".gz"

/-- Log temp path `{tmpPath}/{name}-{startEpochSeconds}.log`. -/
def mlogPath (c : DumpConfig) : String :=
  c.tmpPath ++ "/" ++ c.name ++ "-" ++ toString c.ts ++ ".log"

/-- filepath.Split's file component: everything after the last slash
(the empty string splits to the empty base name). -/
def baseName (s : String) : String :=
  ((s.splitOn "/").getLast?).getD ""

/-- One fragment appended to the mongodump command string.  Each
constructor corresponds to one `dump += fmt.Sprintf(...)` in `dump`;
`hostPort` covers the single Sprintf that emits both `--host` and
`--port`, `creds` the one that emits `-u` and `-p`. -/
inductive DumpFlag where
  | uri (v : String)
  | hostPort (h p : String)
  | creds (u p : String)
  | db (v : String)
  | coll (v : String)
  | excludeColl (v : String)
  | params (v : String)
  deriving Repr, DecidableEq

/-- Whether a fragment is the URI flag. -/
def DumpFlag.isUri : DumpFlag → Bool
  | .uri _ => true
  | _ => false

/-- Whether a fragment is the host/port pair. -/
def DumpFlag.isHostPort : DumpFlag → Bool
  | .hostPort _ _ => true
  | _ => false

/-- Whether a fragment is the credential pair. -/
def DumpFlag.isCreds : DumpFlag → Bool
  | .creds _ _ => true
  | _ => false

/-- The exact text each fragment contributes to the command string. -/
def renderFlag : DumpFlag → String
  | .uri v => "--uri \"" ++ v ++ "\" "
  | .hostPort h p => "--host " ++ h ++ " --port " ++ p ++ " "
  | .creds u p => "-u \"" ++ u ++ "\" -p \"" ++ p ++ "\" "
  | .db v => "--db " ++ v ++ " "
  | .coll v => "--collection " ++ v ++ " "
  | .excludeColl v => "--excludeCollection " ++ v ++ " "
  | .params v => v

/-- Connection-selector fragments: `--uri` if the plan's URI is non-empty,
otherwise `--host`/`--port` plus credentials when both the username and the
password are non-empty (lines 21-33 of local.go). -/
def connFlags (c : DumpConfig) : List DumpFlag :=
  if c.plan.target.uri ≠ "" then
    [DumpFlag.uri c.plan.target.uri]
  else
    [DumpFlag.hostPort c.plan.target.host c.plan.target.port] ++
      (if c.plan.target.username ≠ "" ∧ c.plan.target.password ≠ "" then
        [DumpFlag.creds c.plan.target.username c.plan.target.password]
      else [])

/-- Filter fragments: `--db`, `--collection`, one `--excludeCollection`
per non-empty entry, then the verbatim extra params (lines 35-50). -/
def filterFlags (c : DumpConfig) : List DumpFlag :=
  (if c.database ≠ "" then [DumpFlag.db c.database] else []) ++
    ((if c.plan.target.collection ≠ "" then
        [DumpFlag.coll c.plan.target.collection]
      else []) ++
      (((c.plan.target.excludeCollections.filter (fun e => e ≠ "")).map
          DumpFlag.excludeColl) ++
        (if c.plan.target.params ≠ "" then
          [DumpFlag.params c.plan.target.params]
        else [])))

/-- All fragments appended after the fixed prefix, in append order. -/
def dumpFlags (c : DumpConfig) : List DumpFlag :=
  connFlags c ++ filterFlags c

/-- The full mongodump command string built by `dump`. -/
def dumpCmd (c : DumpConfig) : String :=
  "mongodump --archive=" ++ archivePath c ++ " --gzip " ++
    String.join ((dumpFlags c).map renderFlag)

/-- Example target with a URI set, used by witness theorems. -/
def targetUriEx : Target :=
  { uri := "mongodb://h:27017", host := "", port := "", username := "",
    password := "", database := "d", collection := "",
    excludeCollections := [], excludeDatabases := [], params := "" }

/-- Example target using host/port plus credentials, used by witness
theorems. -/
def targetHostEx : Target :=
  { uri := "", host := "h", port := "27017", username := "u", password := "w",
    database := "", collection := "", excludeCollections := [],
    excludeDatabases := [], params := "" }

/-- Example plan with a URI, no destinations. -/
def planUriEx : Plan :=
  { name := "p", target := targetUriEx, scheduler := { timeout := 1, retention := 0 },
    mode := "", encryption := false, sftp := false, s3 := false, gcloud := false,
    azure := false, rclone := false }

/-- Example plan with host/port credentials, no destinations. -/
def planHostEx : Plan :=
  { name := "p", target := targetHostEx, scheduler := { timeout := 1, retention := 0 },
    mode := "", encryption := false, sftp := false, s3 := false, gcloud := false,
    azure := false, rclone := false }

/-- Example app config. -/
def confEx : AppConfig := { tmpPath := "/tmp", storagePath := "/s" }

/-- Example dump config built from the URI plan. -/
def cUriEx : DumpConfig := mkDumpConfig planUriEx confEx 7

/-- Example dump config built from the host/port plan. -/
def cHostEx : DumpConfig := mkDumpConfig planHostEx confEx 7

/-- Newline folding `strings.Replace(s, "\n", " ", -1)`: the pattern is the
single newline character, so the replacement maps every newline to a
space. -/
def foldNewlines (s : String) : String :=
  String.mk (s.data.map (fun ch => if ch = '\n' then ' ' else ch))

/-- Pure part of `dump` (lines 54-66): given the combined output and the
optional execution error of the shell command, return the archive path, the
log path, and the error.  On failure the Go function returns empty paths and
wraps the execution error in a `mongodump log` message holding the output
with newlines folded; on success it returns the two temp paths. -/
def dumpPure (c : DumpConfig) (out : String) (execErr : Option Err) :
    String × String × Option Err :=
  match execErr with
  | some e =>
    let ex := if out.length > 0 then foldNewlines out else ""
    ("", "", some (Err.wrap ("mongodump log " ++ ex) e))
  | none => (archivePath c, mlogPath c, none)

/-- File-system effect of `dump` on the set of existing paths: on failure
`os.Remove(archive)` is called with its error ignored (the path is gone
afterwards whether or not it existed); on success `logToFile` writes the
log file only when the output is non-empty. -/
def dumpFs (c : DumpConfig) (out : String) (execErr : Option Err)
    (fs : List String) : List String :=
  match execErr with
  | some _ => fs.filter (fun p => p ≠ archivePath c)
  | none => if out.length > 0 then mlogPath c :: fs else fs

/-- Artifact classes the retention pruner works on: the archive class
(`*.gz` plus `*.gz.encrypted`) and the log class (`*.log`). -/
inductive RClass where
  | gz
  | logc
  deriving Repr, DecidableEq

/-- The shell command `applyRetention` runs for the archive class. -/
def retentionGzCmd (path : String) (retention : Nat) : String :=
  "cd " ++ path ++ " && rm -f $(ls -1t *.gz *.gz.encrypted | tail -n +" ++
    toString (retention + 1) ++ ")"

/-- The shell command `applyRetention` runs for the log class. -/
def retentionLogCmd (path : String) (retention : Nat) : String :=
  "cd " ++ path ++ " && rm -f $(ls -1t *.log | tail -n +" ++
    toString (retention + 1) ++ ")"

/-- applyRetention (lines 80-95), parameterised by the outcomes of its two
shell commands.  It returns the list of classes whose deletion command was
actually run, in order, and the error.  The Go code returns as soon as the
archive-class command fails, so the log class is only attempted when the
archive class succeeded. -/
def applyRetention (path : String) (retention : Nat)
    (gzErr logErr : Option Err) : List RClass × Option Err :=
  match gzErr with
  | some e =>
    ([RClass.gz],
      some (Err.wrap ("removing old gz files from " ++ path ++ " failed") e))
  | none =>
    match logErr with
    | some e =>
      ([RClass.gz, RClass.logc],
        some (Err.wrap ("removing old log files from " ++ path ++ " failed") e))
    | none => ([RClass.gz, RClass.logc], none)

/-- Destination kinds, in the order runDumpAndUpload checks them. -/
inductive UploadKind where
  | sftp
  | s3
  | gcloud
  | azure
  | rclone
  deriving Repr, DecidableEq

/-- Outcomes of every external call runDumpAndUpload makes, supplied to the
model: dump output and error, mkdir/stat/mv results, the two retention
commands, encryption, one outcome per uploader, and the clock at the end of
the attempt. -/
structure ChainEnv where
  dumpOut : String
  dumpErr : Option Err
  mkdirErr : Option Err
  statSize : Int
  statErr : Option Err
  mvArchiveErr : Option Err
  logExists : Bool
  mvLogErr : Option Err
  retGzErr : Option Err
  retLogErr : Option Err
  encErr : Option Err
  sftpErr : Option Err
  s3Err : Option Err
  gcloudErr : Option Err
  azureErr : Option Err
  rcloneErr : Option Err
  now : Nat
  deriving Repr, DecidableEq

/-- Output of one run of the single-database chain: the uploader calls made
(kind and file path, in order), the Result, and the error. -/
structure ChainOut where
  uploads : List (UploadKind × String)
  result : Result
  err : Option Err
  deriving Repr, DecidableEq

/-- One `if c.plan.X != nil { out, err := xUpload(file, plan); if err != nil
{ return res, err } }` block of runDumpAndUpload: skip when the destination
is not configured, record the call, and stop the sequence on error. -/
def upStep (configured : Bool) (k : UploadKind) (e : Option Err) (file : String)
    (rest : List (UploadKind × String) × Option Err) :
    List (UploadKind × String) × Option Err :=
  if configured then
    match e with
    | some err => ([(k, file)], some err)
    | none => ((k, file) :: rest.1, rest.2)
  else rest

/-- The five uploader blocks of runDumpAndUpload (lines 298-341) in source
order: SFTP, S3, GCloud, Azure, Rclone. -/
def runUploadSeq (c : DumpConfig) (env : ChainEnv) (file : String) :
    List (UploadKind × String) × Option Err :=
  upStep c.plan.sftp UploadKind.sftp env.sftpErr file
    (upStep c.plan.s3 UploadKind.s3 env.s3Err file
      (upStep c.plan.gcloud UploadKind.gcloud env.gcloudErr file
        (upStep c.plan.azure UploadKind.azure env.azureErr file
          (upStep c.plan.rclone UploadKind.rclone env.rcloneErr file ([], none)))))

/-- Upload-and-finalize tail of runDumpAndUpload: on the first uploader
error return the failure-seeded Result with that error; if all uploads
pass, promote the Result to success and set the duration. -/
def finishChain (c : DumpConfig) (env : ChainEnv) (res : Result) (file : String) :
    ChainOut :=
  match runUploadSeq c env file with
  | (ups, some e) => ⟨ups, res, some e⟩
  | (ups, none) => ⟨ups, { res with status := 200, duration := env.now - c.ts }, none⟩

/-- runDumpAndUpload (lines 235-353): dump, record the base name, create the
plan directory, stat the archive and record its size, move the archive and
the log file, apply retention, optionally encrypt, then upload and
finalize.  Each stage returns early with the partial Result and a wrapped
error, exactly as the Go code does. -/
def runDumpAndUpload (c : DumpConfig) (env : ChainEnv) : ChainOut :=
  match dumpPure c env.dumpOut env.dumpErr with
  | (archive, mlog, derr) =>
    let res := { errRes c with name := baseName archive }
    match derr with
    | some e => ⟨[], res, some e⟩
    | none =>
      match env.mkdirErr with
      | some e =>
        ⟨[], res, some (Err.wrap
          ("creating dir " ++ c.name ++ " in " ++ c.storagePath ++ " failed") e)⟩
      | none =>
        match env.statErr with
        | some e =>
          ⟨[], res, some (Err.wrap ("stat file " ++ archive ++ " failed") e)⟩
        | none =>
          let res := { res with size := env.statSize }
          match env.mvArchiveErr with
          | some e =>
            ⟨[], res, some (Err.wrap
              ("moving file from " ++ archive ++ " to " ++ c.planDir ++ " failed") e)⟩
          | none =>
            match (if env.logExists then env.mvLogErr else none) with
            | some e =>
              ⟨[], res, some (Err.wrap
                ("moving file from " ++ mlog ++ " to " ++ c.planDir ++ " failed") e)⟩
            | none =>
              match (if c.plan.scheduler.retention > 0 then
                  (applyRetention c.planDir c.plan.scheduler.retention
                    env.retGzErr env.retLogErr).2
                else none) with
              | some e => ⟨[], res, some (Err.wrap "retention job failed" e)⟩
              | none =>
                let file := c.planDir ++ "/" ++ res.name
                if c.plan.encryption then
                  match env.encErr with
                  | some e => ⟨[], res, some e⟩
                  | none => finishChain c env res (file ++ ".encrypted")
                else
                  finishChain c env res file

/-- The configured destinations of a plan in the fixed order SFTP, S3,
GCloud, Azure, Rclone. -/
def uploadOrder (p : Plan) : List UploadKind :=
  (if p.sftp then [UploadKind.sftp] else []) ++
    ((if p.s3 then [UploadKind.s3] else []) ++
      ((if p.gcloud then [UploadKind.gcloud] else []) ++
        ((if p.azure then [UploadKind.azure] else []) ++
          ((if p.rclone then [UploadKind.rclone] else []) ++ []))))

/-- Outcome of each uploader in a chain environment. -/
def envUp (env : ChainEnv) : UploadKind → Option Err
  | .sftp => env.sftpErr
  | .s3 => env.s3Err
  | .gcloud => env.gcloudErr
  | .azure => env.azureErr
  | .rclone => env.rcloneErr

/-- Spec-side definition, following the spec's words (4.3 step 6): invoke
each configured destination's uploader sequentially with the current file;
the first failing uploader aborts the remaining uploads and its error is
the attempt's error; uploads already made stay in the trace. -/
def uploadSeqSpec : List UploadKind → (UploadKind → Option Err) → String →
    List (UploadKind × String) × Option Err
  | [], _, _ => ([], none)
  | k :: ks, f, file =>
    match f k with
    | some e => ([(k, file)], some e)
    | none =>
      let r := uploadSeqSpec ks f file
      ((k, file) :: r.1, r.2)

/-- The path the upload stage works on: the archive moved into the plan
directory, with the `.encrypted` suffix when the plan has encryption. -/
def currentFile (c : DumpConfig) : String :=
  let plain := c.planDir ++ "/" ++ baseName (archivePath c)
  if c.plan.encryption then plain ++ ".encrypted" else plain

/-- Example plan with three destinations configured (SFTP, S3, Rclone). -/
def planUpEx : Plan :=
  { name := "p", target := targetUriEx,
    scheduler := { timeout := 1, retention := 0 }, mode := "",
    encryption := false, sftp := true, s3 := true, gcloud := false,
    azure := false, rclone := true }

/-- Example dump config for the three-destination plan. -/
def cUpEx : DumpConfig := mkDumpConfig planUpEx confEx 7

/-- Example chain environment: every stage succeeds except the S3 upload. -/
def envUpEx : ChainEnv :=
  { dumpOut := "", dumpErr := none, mkdirErr := none, statSize := 100,
    statErr := none, mvArchiveErr := none, logExists := false, mvLogErr := none,
    retGzErr := none, retLogErr := none, encErr := none, sftpErr := none,
    s3Err := some (Err.fail "s3 down"), gcloudErr := none, azureErr := none,
    rcloneErr := none, now := 9 }

/-- The derived per-database attempt context the fan-out loop computes
(lines 214-216): `dc := *c; dc.database = dbName;
dc.name = fmt.Sprintf("%s-%s", dc.plan.Name, dbName)`. -/
def childConfig (c : DumpConfig) (dbName : String) : DumpConfig :=
  { c with database := dbName, name := c.plan.name ++ "-" ++ dbName }

/-- Output of the fan-out controller and of the entry point: whether
database enumeration ran, the dumpConfig values passed to
runDumpAndUpload in order, the Result, and the error. -/
structure RunOut where
  enumerated : Bool
  calls : List DumpConfig
  result : Result
  err : Option Err
  deriving Repr, DecidableEq

/-- The per-database loop of runDumpPerDBAndUpload (lines 205-224),
parameterised by the outcome of each chain invocation (`outcome i` is what
the i-th call to runDumpAndUpload returns).  State: remaining names,
attempts counter, running size total, failed-database list, and the trace
of configs passed to the chain.  The Go loop computes the derived child
config `dc` and then calls `runDumpAndUpload(c)` with the parent `c`;
the trace records exactly that. -/
def fanLoop (c : DumpConfig) (outcome : Nat → Result × Option Err) :
    List String → Nat → Int → List String → List DumpConfig →
    Nat × Int × List String × List DumpConfig
  | [], attempts, totalSize, failed, calls => (attempts, totalSize, failed, calls)
  | dbName :: rest, attempts, totalSize, failed, calls =>
    if dbName ∈ c.plan.target.excludeDatabases then
      fanLoop c outcome rest attempts totalSize failed calls
    else
      let dc := childConfig c dbName
      let r := outcome attempts
      match r.2 with
      | some _ =>
        fanLoop c outcome rest (attempts + 1) totalSize (failed ++ [dbName])
          (calls ++ [c])
      | none =>
        fanLoop c outcome rest (attempts + 1) (totalSize + r.1.size) failed
          (calls ++ [c])

/-- runDumpPerDBAndUpload (lines 192-233): reject a plan without a URI
before enumerating, propagate enumeration failure, then loop over the
discovered names; at the end report PartialBackupFailure naming the failed
databases when any child failed, otherwise success with the summed size. -/
def runDumpPerDBAndUpload (c : DumpConfig) (getDB : Except Err (List String))
    (outcome : Nat → Result × Option Err) (now : Nat) : RunOut :=
  if c.plan.target.uri = "" then
    ⟨false, [], errRes c,
      some (Err.fail ("must use MongoDB URI with '" ++ c.plan.mode ++
        "' backup mode"))⟩
  else
    match getDB with
    | .error e => ⟨true, [], errRes c, some e⟩
    | .ok dbNames =>
      match fanLoop c outcome dbNames 0 0 [] [] with
      | (attempts, totalSize, failed, calls) =>
        let res := { errRes c with duration := now - c.ts }
        if failed.length > 0 then
          ⟨true, calls, res,
            some (Err.fail (toString failed.length ++ " of " ++
              toString attempts ++ " database backups failed: " ++
              String.intercalate "," failed))⟩
        else
          ⟨true, calls, { res with status := 200, size := totalSize }, none⟩

/-- Run (lines 141-163): build the dumpConfig, then dispatch on the plan
mode — per-database fan-out, single chain (rejecting database exclusions),
or an unknown-mode error. -/
def Run (plan : Plan) (conf : AppConfig) (ts : Nat)
    (getDB : Except Err (List String)) (outcome : Nat → Result × Option Err)
    (env : ChainEnv) (now : Nat) : RunOut :=
  let c := mkDumpConfig plan conf ts
  if plan.mode = BackupModeDatabase then
    runDumpPerDBAndUpload c getDB outcome now
  else if plan.mode = "" ∨ plan.mode = BackupModeSingle then
    if plan.target.excludeDatabases.length ≠ 0 then
      ⟨false, [], errRes c,
        some (Err.fail ("cannot exclude databases with '" ++ BackupModeSingle ++
          "' (default) backup mode"))⟩
    else
      let o := runDumpAndUpload c env
      ⟨false, [c], o.result, o.err⟩
  else
    ⟨false, [], errRes c, some (Err.fail ("unknown mode: '" ++ plan.mode ++ "'"))⟩

/-- Example target for fan-out: URI set, parent database selector empty. -/
def targetFanEx : Target :=
  { uri := "mongodb://h:27017", host := "", port := "", username := "",
    password := "", database := "", collection := "", excludeCollections := [],
    excludeDatabases := [], params := "" }

/-- Example per-database-mode plan. -/
def planFanEx : Plan :=
  { name := "p", target := targetFanEx,
    scheduler := { timeout := 1, retention := 0 }, mode := BackupModeDatabase,
    encryption := false, sftp := false, s3 := false, gcloud := false,
    azure := false, rclone := false }

/-- Example fan-out dump config. -/
def cFanEx : DumpConfig := mkDumpConfig planFanEx confEx 7

/-- Chain outcome oracle where every attempt succeeds with size 100. -/
def okOutcome : Nat → Result × Option Err := fun _ =>
  ({ plan := "p", timestamp := 7, status := 200, duration := 1, name := "a.gz",
     size := 100 }, none)

/-- Chain outcome oracle where the first attempt succeeds with size 100 and
every later attempt fails. -/
def mixedOutcome : Nat → Result × Option Err := fun i =>
  if i = 0 then
    ({ plan := "p", timestamp := 7, status := 200, duration := 1, name := "a.gz",
       size := 100 }, none)
  else
    ({ plan := "p", timestamp := 7, status := 500, duration := 0, name := "",
       size := 0 }, some (Err.fail "dump failed"))

/-- Example per-database plan with no URI. -/
def planNoUriEx : Plan :=
  { name := "p", target := targetHostEx,
    scheduler := { timeout := 1, retention := 0 }, mode := BackupModeDatabase,
    encryption := false, sftp := false, s3 := false, gcloud := false,
    azure := false, rclone := false }

/-- Example dump config for the URI-less per-database plan. -/
def cNoUriEx : DumpConfig := mkDumpConfig planNoUriEx confEx 7

/-- Example single-mode plan with a database exclusion. -/
def planExclEx : Plan :=
  { name := "p",
    target := { targetUriEx with excludeDatabases := ["admin"] },
    scheduler := { timeout := 1, retention := 0 }, mode := "",
    encryption := false, sftp := false, s3 := false, gcloud := false,
    azure := false, rclone := false }

/-- Example plan with an unknown mode. -/
def planWeirdEx : Plan :=
  { name := "p", target := targetUriEx,
    scheduler := { timeout := 1, retention := 0 }, mode := "weird",
    encryption := false, sftp := false, s3 := false, gcloud := false,
    azure := false, rclone := false }

theorem filterFlags_no_conn (c : DumpConfig) :
    ∀ f ∈ filterFlags c, f.isUri = false ∧ f.isHostPort = false ∧ f.isCreds = false := by
  intro f hf
  simp only [filterFlags, List.mem_append, List.mem_ite_nil_right, List.mem_singleton,
    List.mem_map, List.mem_filter] at hf
  rcases hf with ⟨_, rfl⟩ | ⟨⟨_, rfl⟩ | ⟨⟨_, _, rfl⟩ | ⟨_, rfl⟩⟩⟩ <;>
    simp [DumpFlag.isUri, DumpFlag.isHostPort, DumpFlag.isCreds]

/-- C4: a plan with a non-empty URI yields a dump command with the URI flag
and no host/port or credential flags; a plan with an empty URI yields
host/port, no URI flag, and credential flags exactly when both username and
password are non-empty. -/
theorem C4_connection_selector (c : DumpConfig) :
    (c.plan.target.uri ≠ "" →
      DumpFlag.uri c.plan.target.uri ∈ dumpFlags c ∧
      (∀ f ∈ dumpFlags c, f.isHostPort = false ∧ f.isCreds = false)) ∧
    (c.plan.target.uri = "" →
      DumpFlag.hostPort c.plan.target.host c.plan.target.port ∈ dumpFlags c ∧
      (∀ f ∈ dumpFlags c, f.isUri = false) ∧
      (DumpFlag.creds c.plan.target.username c.plan.target.password ∈ dumpFlags c ↔
        (c.plan.target.username ≠ "" ∧ c.plan.target.password ≠ ""))) := by
  constructor
  · intro hu
    have hcf : connFlags c = [DumpFlag.uri c.plan.target.uri] := by
      simp [connFlags, hu]
    constructor
    · simp [dumpFlags, hcf]
    · intro f hf
      simp only [dumpFlags, hcf, List.mem_append, List.mem_singleton] at hf
      rcases hf with rfl | hf
      · exact ⟨rfl, rfl⟩
      · exact ⟨(filterFlags_no_conn c f hf).2.1, (filterFlags_no_conn c f hf).2.2⟩
  · intro hu
    by_cases hc : c.plan.target.username ≠ "" ∧ c.plan.target.password ≠ ""
    · have hcf : connFlags c =
          [DumpFlag.hostPort c.plan.target.host c.plan.target.port,
            DumpFlag.creds c.plan.target.username c.plan.target.password] := by
        simp [connFlags, hu, hc]
      refine ⟨?_, ?_, ?_⟩
      · simp [dumpFlags, hcf]
      · intro f hf
        simp only [dumpFlags, hcf, List.mem_append, List.mem_cons,
          List.not_mem_nil, or_false] at hf
        rcases hf with (rfl | rfl) | hf
        · rfl
        · rfl
        · exact (filterFlags_no_conn c f hf).1
      · exact iff_of_true (by simp [dumpFlags, hcf]) hc
    · have hcf : connFlags c =
          [DumpFlag.hostPort c.plan.target.host c.plan.target.port] := by
        simp [connFlags, hu, hc]
      refine ⟨?_, ?_, ?_⟩
      · simp [dumpFlags, hcf]
      · intro f hf
        simp only [dumpFlags, hcf, List.mem_append, List.mem_singleton] at hf
        rcases hf with rfl | hf
        · rfl
        · exact (filterFlags_no_conn c f hf).1
      · refine iff_of_false ?_ hc
        intro hmem
        simp only [dumpFlags, hcf, List.mem_append, List.mem_singleton] at hmem
        rcases hmem with hmem | hmem
        · exact DumpFlag.noConfusion hmem
        · exact absurd (filterFlags_no_conn c _ hmem).2.2 (by simp [DumpFlag.isCreds])

/-- Witness for C4 at two concrete plans: one with a URI, one with
host/port plus credentials. -/
theorem C4_connection_selector_witness :
    (DumpFlag.uri "mongodb://h:27017" ∈ dumpFlags cUriEx ∧
      (∀ f ∈ dumpFlags cUriEx, f.isHostPort = false ∧ f.isCreds = false)) ∧
    (DumpFlag.hostPort "h" "27017" ∈ dumpFlags cHostEx ∧
      (∀ f ∈ dumpFlags cHostEx, f.isUri = false) ∧
      (DumpFlag.creds "u" "w" ∈ dumpFlags cHostEx ↔ ("u" ≠ "" ∧ "w" ≠ ""))) :=
  ⟨(C4_connection_selector cUriEx).1 (by decide),
    (C4_connection_selector cHostEx).2 (by decide)⟩

/-- C5: on a failed dump execution the partially-written archive is removed
from the file system (delete errors ignored, so it does not exist
afterwards) and the returned error wraps the underlying execution error,
carrying the captured combined output with newlines folded to spaces. -/
theorem C5_dump_failure_cleanup (c : DumpConfig) (out : String) (e : Err)
    (fs : List String) :
    archivePath c ∉ dumpFs c out (some e) fs ∧
    dumpPure c out (some e) =
      ("", "", some (Err.wrap ("mongodump log " ++ foldNewlines out) e)) := by
  constructor
  · simp [dumpFs, List.mem_filter]
  · simp only [dumpPure]
    by_cases h : out.length > 0
    · simp [h]
    · have hempty : out = "" := by
        cases out with
        | mk l =>
          have hl : l.length = 0 := by simpa using Nat.eq_zero_of_not_pos h
          have hnil : l = [] := List.length_eq_zero.mp hl
          subst hnil
          rfl
      subst hempty
      simp [h]
      rfl

/-- C2 counterexample: when the archive-class deletion fails, the log class
is never attempted, contradicting the claim that a failure in one class
does not prevent the deletion attempt for the other class. -/
theorem C2_retention_counterexample :
    (applyRetention "/storage/p" 2 (some (Err.fail "rm: cannot remove")) none).1 =
      [RClass.gz] ∧
    RClass.logc ∉
      (applyRetention "/storage/p" 2 (some (Err.fail "rm: cannot remove")) none).1 := by
  constructor
  · rfl
  · simp [applyRetention]

/-- C2 amended: the pruner attempts the archive class first; if that
deletion fails it returns RetentionFailed at once without attempting the
log class, and otherwise attempts the log class and fails exactly when that
attempt fails. -/
theorem C2_retention_amended (path : String) (retention : Nat)
    (gzErr logErr : Option Err) :
    (∀ e, gzErr = some e →
      applyRetention path retention gzErr logErr =
        ([RClass.gz],
          some (Err.wrap ("removing old gz files from " ++ path ++ " failed") e))) ∧
    (gzErr = none →
      (applyRetention path retention gzErr logErr).1 = [RClass.gz, RClass.logc] ∧
      ((applyRetention path retention gzErr logErr).2 = none ↔ logErr = none)) := by
  cases gzErr <;> cases logErr <;> simp [applyRetention]

/-- Witness for the amended C2 at concrete outcomes: one run whose
archive-class command fails, one whose commands both succeed. -/
theorem C2_retention_amended_witness :
    (applyRetention "/storage/p" 2 (some (Err.fail "boom")) none =
      ([RClass.gz],
        some (Err.wrap "removing old gz files from /storage/p failed"
          (Err.fail "boom")))) ∧
    ((applyRetention "/storage/p" 2 none none).1 = [RClass.gz, RClass.logc] ∧
      ((applyRetention "/storage/p" 2 none none).2 = none ↔
        (none : Option Err) = none)) :=
  ⟨(C2_retention_amended "/storage/p" 2 (some (Err.fail "boom")) none).1
      (Err.fail "boom") rfl,
    (C2_retention_amended "/storage/p" 2 none none).2 rfl⟩

theorem uploadSeqSpec_if_append (b : Bool) (k : UploadKind) (ks : List UploadKind)
    (f : UploadKind → Option Err) (file : String) :
    uploadSeqSpec ((if b then [k] else []) ++ ks) f file =
      upStep b k (f k) file (uploadSeqSpec ks f file) := by
  cases b
  · simp [upStep]
  · cases hfk : f k <;> simp [uploadSeqSpec, upStep, hfk]

theorem runUploadSeq_eq_spec (c : DumpConfig) (env : ChainEnv) (file : String) :
    runUploadSeq c env file = uploadSeqSpec (uploadOrder c.plan) (envUp env) file := by
  simp only [uploadOrder, uploadSeqSpec_if_append]
  rfl

theorem finishChain_spec (c : DumpConfig) (env : ChainEnv) (res : Result)
    (file : String) :
    (finishChain c env res file).uploads =
      (uploadSeqSpec (uploadOrder c.plan) (envUp env) file).1 ∧
    (finishChain c env res file).err =
      (uploadSeqSpec (uploadOrder c.plan) (envUp env) file).2 := by
  simp only [finishChain, runUploadSeq_eq_spec]
  rcases h : uploadSeqSpec (uploadOrder c.plan) (envUp env) file with ⟨ups, oerr⟩
  cases oerr <;> simp [h]

/-- C6: when the chain reaches the upload stage (all earlier stages
succeeded), the uploaders run strictly sequentially in the fixed order
SFTP, S3, GCloud, Azure, Rclone on the current file (the encrypted path
when encryption is configured and succeeded); the first failure aborts the
remaining uploads and becomes the attempt's error, earlier uploads staying
in the trace. -/
theorem C6_upload_sequence (c : DumpConfig) (env : ChainEnv)
    (hdump : env.dumpErr = none) (hmkdir : env.mkdirErr = none)
    (hstat : env.statErr = none) (hmv : env.mvArchiveErr = none)
    (hlog : env.logExists = true → env.mvLogErr = none)
    (hret : c.plan.scheduler.retention > 0 →
      env.retGzErr = none ∧ env.retLogErr = none)
    (henc : c.plan.encryption = true → env.encErr = none) :
    (runDumpAndUpload c env).uploads =
      (uploadSeqSpec (uploadOrder c.plan) (envUp env) (currentFile c)).1 ∧
    (runDumpAndUpload c env).err =
      (uploadSeqSpec (uploadOrder c.plan) (envUp env) (currentFile c)).2 := by
  have hfile : (if env.logExists then env.mvLogErr else none) = none := by
    cases hle : env.logExists
    · simp
    · simp [hlog hle]
  have hretn : (if c.plan.scheduler.retention > 0 then
      (applyRetention c.planDir c.plan.scheduler.retention
        env.retGzErr env.retLogErr).2
    else none) = none := by
    by_cases hr : c.plan.scheduler.retention > 0
    · rcases hret hr with ⟨h1, h2⟩
      simp [hr, applyRetention, h1, h2]
    · simp [hr]
  rw [runDumpAndUpload]
  simp only [dumpPure, hdump, hmkdir, hstat, hmv, hfile, hretn]
  cases he : c.plan.encryption
  · simp only [he, Bool.false_eq_true, if_false, currentFile]
    exact finishChain_spec c env _ _
  · simp only [he, if_true, henc he, currentFile]
    exact finishChain_spec c env _ _

/-- Witness for C6 at the three-destination plan whose S3 upload fails:
SFTP runs, S3 runs and fails, Rclone is never invoked. -/
theorem C6_upload_sequence_witness :
    (runDumpAndUpload cUpEx envUpEx).uploads =
      (uploadSeqSpec (uploadOrder cUpEx.plan) (envUp envUpEx)
        (currentFile cUpEx)).1 ∧
    (runDumpAndUpload cUpEx envUpEx).err =
      (uploadSeqSpec (uploadOrder cUpEx.plan) (envUp envUpEx)
        (currentFile cUpEx)).2 :=
  C6_upload_sequence cUpEx envUpEx rfl rfl rfl rfl (by decide) (by decide)
    (by decide)

/-- C1: the fan-out loop derives the child context (database and name
overridden) but invokes the chain with the unmodified parent context; with
discovered database A the single call receives the parent config, whose
database field is still empty and whose name is still the plan name, not
the derived child config. -/
theorem C1_parent_context_eval :
    (runDumpPerDBAndUpload cFanEx (Except.ok ["A"]) okOutcome 9).calls = [cFanEx] ∧
    cFanEx.database = "" ∧ cFanEx.name = "p" ∧
    (childConfig cFanEx "A").database = "A" ∧
    (childConfig cFanEx "A").name = "p-A" ∧
    childConfig cFanEx "A" ≠ cFanEx := by decide

/-- C3 counterexample: fan-out over [A, B] where A succeeds with size 100
and B fails reports aggregate size 0, not 100, although the error does
name B with the failed and attempted counts. -/
theorem C3_partial_size_counterexample :
    (runDumpPerDBAndUpload cFanEx (Except.ok ["A", "B"]) mixedOutcome 9).result.size
        = 0 ∧
    (runDumpPerDBAndUpload cFanEx (Except.ok ["A", "B"]) mixedOutcome 9).result.size
        ≠ 100 ∧
    (runDumpPerDBAndUpload cFanEx (Except.ok ["A", "B"]) mixedOutcome 9).err =
      some (Err.fail "1 of 2 database backups failed: B") := by decide

/-- C3 amended: on a partial failure the fan-out returns an error naming
the failed databases, the failed count and the attempted count, with
failure status — but the reported aggregate size is 0, the running total of
succeeded sizes being reported only when every child succeeded. -/
theorem C3_partial_failure_amended (c : DumpConfig) (dbNames : List String)
    (outcome : Nat → Result × Option Err) (now : Nat) (attempts : Nat)
    (totalSize : Int) (failed : List String) (calls : List DumpConfig)
    (hu : c.plan.target.uri ≠ "")
    (hloop : fanLoop c outcome dbNames 0 0 [] [] =
      (attempts, totalSize, failed, calls)) :
    (failed ≠ [] →
      (runDumpPerDBAndUpload c (Except.ok dbNames) outcome now).err =
        some (Err.fail (toString failed.length ++ " of " ++ toString attempts ++
          " database backups failed: " ++ String.intercalate "," failed)) ∧
      (runDumpPerDBAndUpload c (Except.ok dbNames) outcome now).result.size = 0 ∧
      (runDumpPerDBAndUpload c (Except.ok dbNames) outcome now).result.status
        = 500) ∧
    (failed = [] →
      (runDumpPerDBAndUpload c (Except.ok dbNames) outcome now).result.size
        = totalSize ∧
      (runDumpPerDBAndUpload c (Except.ok dbNames) outcome now).err = none) := by
  simp only [runDumpPerDBAndUpload, hu, if_neg, ite_false, hloop]
  constructor
  · intro hne
    have hlen : failed.length > 0 := List.length_pos.mpr hne
    simp [hlen, errRes]
  · intro heq
    subst heq
    simp [errRes]

/-- Witness for the amended C3 at the concrete two-database fan-out where
A succeeds with size 100 and B fails. -/
theorem C3_partial_failure_amended_witness :
    (runDumpPerDBAndUpload cFanEx (Except.ok ["A", "B"]) mixedOutcome 9).err =
      some (Err.fail "1 of 2 database backups failed: B") ∧
    (runDumpPerDBAndUpload cFanEx (Except.ok ["A", "B"]) mixedOutcome 9).result.size
      = 0 ∧
    (runDumpPerDBAndUpload cFanEx (Except.ok ["A", "B"]) mixedOutcome 9).result.status
      = 500 := by
  have h := (C3_partial_failure_amended cFanEx ["A", "B"] mixedOutcome 9 2 100
      ["B"] [cFanEx, cFanEx] (by decide) (by decide)).1 (by decide)
  refine ⟨?_, h.2.1, h.2.2⟩
  rw [h.1]
  decide

/-- C9: a per-database-mode fan-out whose plan has no URI fails with the
configuration error before enumeration runs and before any child attempt
starts. -/
theorem C9_perdb_requires_uri (c : DumpConfig) (getDB : Except Err (List String))
    (outcome : Nat → Result × Option Err) (now : Nat)
    (hu : c.plan.target.uri = "") :
    runDumpPerDBAndUpload c getDB outcome now =
      ⟨false, [], errRes c,
        some (Err.fail ("must use MongoDB URI with '" ++ c.plan.mode ++
          "' backup mode"))⟩ := by
  simp [runDumpPerDBAndUpload, hu]

/-- Witness for C9 at the concrete URI-less per-database plan. -/
theorem C9_perdb_requires_uri_witness :
    runDumpPerDBAndUpload cNoUriEx (Except.ok ["A"]) okOutcome 9 =
      ⟨false, [], errRes cNoUriEx,
        some (Err.fail ("must use MongoDB URI with '" ++ cNoUriEx.plan.mode ++
          "' backup mode"))⟩ :=
  C9_perdb_requires_uri cNoUriEx (Except.ok ["A"]) okOutcome 9 (by decide)

/-- C8: a single-mode plan (mode empty or single) with a non-empty
database-exclusion list fails with the configuration error; no chain
invocation (hence no dump) happens and enumeration does not run. -/
theorem C8_single_mode_exclusions (plan : Plan) (conf : AppConfig) (ts : Nat)
    (getDB : Except Err (List String)) (outcome : Nat → Result × Option Err)
    (env : ChainEnv) (now : Nat)
    (hmode : plan.mode = "" ∨ plan.mode = BackupModeSingle)
    (hex : plan.target.excludeDatabases ≠ []) :
    Run plan conf ts getDB outcome env now =
      ⟨false, [], errRes (mkDumpConfig plan conf ts),
        some (Err.fail ("cannot exclude databases with '" ++ BackupModeSingle ++
          "' (default) backup mode"))⟩ := by
  have hlen : plan.target.excludeDatabases.length ≠ 0 := by
    intro h
    exact hex (List.length_eq_zero.mp h)
  rcases hmode with h | h <;>
    simp [Run, hlen, h, BackupModeSingle, BackupModeDatabase]

/-- Witness for C8 at the concrete single-mode plan excluding a database. -/
theorem C8_single_mode_exclusions_witness :
    Run planExclEx confEx 7 (Except.ok ["A"]) okOutcome envUpEx 9 =
      ⟨false, [], errRes (mkDumpConfig planExclEx confEx 7),
        some (Err.fail ("cannot exclude databases with '" ++ BackupModeSingle ++
          "' (default) backup mode"))⟩ :=
  C8_single_mode_exclusions planExclEx confEx 7 (Except.ok ["A"]) okOutcome
    envUpEx 9 (Or.inl rfl) (by decide)

/-- C10: a plan whose mode is neither empty, single, nor database gets the
failure-seeded Result and an unknown-mode error naming the mode, with no
chain invocation and no enumeration. -/
theorem C10_unknown_mode (plan : Plan) (conf : AppConfig) (ts : Nat)
    (getDB : Except Err (List String)) (outcome : Nat → Result × Option Err)
    (env : ChainEnv) (now : Nat) (h1 : plan.mode ≠ BackupModeDatabase)
    (h2 : plan.mode ≠ "") (h3 : plan.mode ≠ BackupModeSingle) :
    Run plan conf ts getDB outcome env now =
      ⟨false, [], errRes (mkDumpConfig plan conf ts),
        some (Err.fail ("unknown mode: '" ++ plan.mode ++ "'"))⟩ := by
  simp [Run, h1, h2, h3]

/-- Witness for C10 at the concrete unknown-mode plan. -/
theorem C10_unknown_mode_witness :
    Run planWeirdEx confEx 7 (Except.ok ["A"]) okOutcome envUpEx 9 =
      ⟨false, [], errRes (mkDumpConfig planWeirdEx confEx 7),
        some (Err.fail ("unknown mode: '" ++ planWeirdEx.mode ++ "'"))⟩ :=
  C10_unknown_mode planWeirdEx confEx 7 (Except.ok ["A"]) okOutcome envUpEx 9
    (by decide) (by decide) (by decide)

theorem fanout_err_result (c : DumpConfig) (getDB : Except Err (List String))
    (outcome : Nat → Result × Option Err) (now : Nat) :
    (runDumpPerDBAndUpload c getDB outcome now).err.isSome →
    (runDumpPerDBAndUpload c getDB outcome now).result.status = 500 ∧
    (runDumpPerDBAndUpload c getDB outcome now).result.plan = c.plan.name ∧
    (runDumpPerDBAndUpload c getDB outcome now).result.timestamp = c.ts := by
  simp only [runDumpPerDBAndUpload]
  repeat' split
  all_goals simp [errRes]

theorem chain_err_result (c : DumpConfig) (env : ChainEnv) :
    (runDumpAndUpload c env).err.isSome →
    (runDumpAndUpload c env).result.status = 500 ∧
    (runDumpAndUpload c env).result.plan = c.plan.name ∧
    (runDumpAndUpload c env).result.timestamp = c.ts := by
  rcases hd : dumpPure c env.dumpOut env.dumpErr with ⟨archive, mlog, derr⟩
  simp only [runDumpAndUpload, finishChain, hd]
  repeat' split
  all_goals simp [errRes]

theorem chain_name_set (c : DumpConfig) (env : ChainEnv) :
    (runDumpAndUpload c env).result.name =
      baseName (dumpPure c env.dumpOut env.dumpErr).1 := by
  rcases hd : dumpPure c env.dumpOut env.dumpErr with ⟨archive, mlog, derr⟩
  simp only [runDumpAndUpload, finishChain, hd]
  repeat' split
  all_goals rfl

/-- C7: whenever the entry point returns an error, the Result beside it is
the failure-seeded one (status 500, the plan's name, the start timestamp);
and in the single-database chain the Result's artifact name always equals
the base name of the path the dump returned, also when the dump failed. -/
theorem C7_result_with_error (plan : Plan) (conf : AppConfig) (ts : Nat)
    (getDB : Except Err (List String)) (outcome : Nat → Result × Option Err)
    (env : ChainEnv) (now : Nat) (c : DumpConfig) (cenv : ChainEnv) :
    ((Run plan conf ts getDB outcome env now).err.isSome →
      (Run plan conf ts getDB outcome env now).result.status = 500 ∧
      (Run plan conf ts getDB outcome env now).result.plan = plan.name ∧
      (Run plan conf ts getDB outcome env now).result.timestamp = ts) ∧
    (runDumpAndUpload c cenv).result.name =
      baseName (dumpPure c cenv.dumpOut cenv.dumpErr).1 := by
  constructor
  · by_cases h1 : plan.mode = BackupModeDatabase
    · intro hsome
      simp only [Run, h1, if_true] at hsome ⊢
      simpa [mkDumpConfig] using
        fanout_err_result (mkDumpConfig plan conf ts) getDB outcome now hsome
    · by_cases h2 : plan.mode = "" ∨ plan.mode = BackupModeSingle
      · by_cases h3 : plan.target.excludeDatabases.length ≠ 0
        · intro _
          simp [Run, h1, h2, h3, errRes, mkDumpConfig]
        · intro hsome
          simp only [Run, h1, h2, h3, if_true, if_false, ite_true, ite_false] at hsome ⊢
          simpa [mkDumpConfig] using
            chain_err_result (mkDumpConfig plan conf ts) env hsome
      · intro _
        simp [Run, h1, h2, errRes, mkDumpConfig]
  · exact chain_name_set c cenv

/-- Witness for C7: the unknown-mode run returns an error together with the
failure-seeded Result, and a concrete chain run records the dump's base
name. -/
theorem C7_result_with_error_witness :
    ((Run planWeirdEx confEx 7 (Except.ok ["A"]) okOutcome envUpEx 9).result.status
        = 500 ∧
      (Run planWeirdEx confEx 7 (Except.ok ["A"]) okOutcome envUpEx 9).result.plan
        = planWeirdEx.name ∧
      (Run planWeirdEx confEx 7 (Except.ok ["A"]) okOutcome envUpEx 9).result.timestamp
        = 7) ∧
    (runDumpAndUpload cUriEx envUpEx).result.name =
      baseName (dumpPure cUriEx envUpEx.dumpOut envUpEx.dumpErr).1 :=
  ⟨(C7_result_with_error planWeirdEx confEx 7 (Except.ok ["A"]) okOutcome envUpEx 9
      cUriEx envUpEx).1 (by decide),
    (C7_result_with_error planWeirdEx confEx 7 (Except.ok ["A"]) okOutcome envUpEx 9
      cUriEx envUpEx).2⟩

end Mgob

